import Mathlib

/-!
Verification of the poly15 trading bot core against its specification.

Shallow embedding of the Python services in `backend/app`:
prices and sizes (Python `Decimal` / `float`) are modelled as `ℚ`,
database rows as structures, and each service method as a pure Lean
function over the state it reads, with network and database outcomes
passed in as explicit arguments.
-/

namespace Poly

/-! ## Data model -/

/-- A row of the `positions` table (the fields the risk and position
    logic reads): `market_id`, `token_id`, `side`, `size`,
    `avg_entry_price`, `status`, and whether `closed_at` has been set. -/
structure Position where
  market_id : ℕ
  token_id : String
  side : String
  size : ℚ
  avg_entry_price : ℚ
  status : String
  closedAtSet : Bool
deriving Repr, DecidableEq

/-- A row of the `markets` table, reduced to the columns the exposure
    join reads: primary key `id` and `asset`. -/
structure MarketRow where
  id : ℕ
  asset : String
deriving Repr, DecidableEq

/-- The database configuration `config` key/value store, after the
    `float(config.get(key, default))` conversions done by
    `RiskManager.check_position_risk`. -/
structure RiskConfig where
  portfolio_trade_pct : ℚ
  max_market_usd : ℚ
  correlation_max_basket_pct : ℚ
  max_open_positions : ℕ
  daily_loss_limit_usd : ℚ
deriving Repr, DecidableEq

/-- The defaults used by `check_position_risk` when a key is absent. -/
def defaultRiskConfig : RiskConfig := ⟨5, 100, 35, 5, 25⟩

/-- Static application settings (`app/core/config.py`), restricted to
    the numeric fields the embedded code reads. -/
structure Settings where
  PORTFOLIO_TRADE_PCT : ℚ
  MAX_MARKET_USD : ℚ
  TAKE_PROFIT_PCT : ℚ
  STOP_LOSS_PCT : ℚ
  MIN_LIQUIDITY_USD : ℚ
deriving Repr, DecidableEq

/-- The defaults declared in `Settings` (`config.py`). -/
def defaultSettings : Settings := ⟨5, 100, 8, 5, 500⟩

/-! ## RiskManager: daily loss, exposure, position checks
    (`app/services/risk_service.py`) -/

/-- `RiskManager.get_daily_loss`: today's `DailyPnL` row is passed as
    `Option ℚ` (its `realized_pnl`, `none` when no row exists); the
    method returns `abs(realized_pnl)` when negative, else `0.0`. -/
def getDailyLoss (dailyRow : Option ℚ) : ℚ :=
  match dailyRow with
  | some v => if v < 0 then -v else 0
  | none => 0

/-- `RiskManager.get_asset_exposure`: sum of `size * avg_entry_price`
    over `open` positions joined to `markets` on `market_id` with the
    given `asset` (an empty sum is `0.0`). -/
def assetExposure (markets : List MarketRow) (positions : List Position)
    (asset : String) : ℚ :=
  ((positions.filter (fun p =>
      p.status == "open" &&
      ((markets.find? (fun m => m.id == p.market_id)).map MarketRow.asset
        == some asset))).map
    (fun p => p.size * p.avg_entry_price)).sum

/-- `RiskManager.get_total_crypto_exposure`: exposure summed over the
    hard-coded asset list `["BTC", "ETH", "SOL"]`. -/
def totalCryptoExposure (markets : List MarketRow)
    (positions : List Position) : ℚ :=
  (["BTC", "ETH", "SOL"].map (assetExposure markets positions)).sum

/-- `RiskManager.get_open_position_count`: count of rows with
    `status == "open"`. -/
def openPositionCount (positions : List Position) : ℕ :=
  (positions.filter (fun p => p.status == "open")).length

/-- The `checks` dictionary built by `check_position_risk`. -/
structure RiskChecks where
  max_trade_size : Bool
  max_market_exposure : Bool
  correlation_limit : Bool
  max_positions : Bool
  daily_loss : Bool
deriving Repr, DecidableEq

/-- `RiskManager.check_position_risk`: evaluates the five checks on the
    candidate order `(asset, size_usd, portfolio_value)` and returns
    `(passed, checks)` where `passed = all(checks.values())`.
    Mirrors the source exactly, including the 80%-warn gate wrapped
    around the daily-loss comparison. -/
def checkPositionRisk (cfg : RiskConfig) (markets : List MarketRow)
    (positions : List Position) (dailyRow : Option ℚ)
    (asset : String) (size_usd portfolio_value : ℚ) : Bool × RiskChecks :=
  let max_trade_usd := portfolio_value * cfg.portfolio_trade_pct / 100
  let max_trade_size := if size_usd > max_trade_usd then false else true
  let max_market_exposure := if size_usd > cfg.max_market_usd then false else true
  let new_total := totalCryptoExposure markets positions + size_usd
  let max_correlated := portfolio_value * cfg.correlation_max_basket_pct / 100
  let correlation_limit := if new_total > max_correlated then false else true
  let max_positions :=
    if openPositionCount positions ≥ cfg.max_open_positions then false else true
  let daily_loss_val := getDailyLoss dailyRow
  let daily_loss :=
    if daily_loss_val ≥ cfg.daily_loss_limit_usd * (8/10) then
      (if daily_loss_val ≥ cfg.daily_loss_limit_usd then false else true)
    else true
  let checks : RiskChecks :=
    ⟨max_trade_size, max_market_exposure, correlation_limit, max_positions,
     daily_loss⟩
  (max_trade_size && max_market_exposure && correlation_limit &&
     max_positions && daily_loss, checks)

/-- The result of `RiskManager.can_trade`: the returned pair
    `(allowed, reason)` plus the `set_bot_state` transition the call
    performs (if any). -/
structure CanTradeResult where
  allowed : Bool
  reason : String
  newState : Option String
deriving Repr, DecidableEq

/-- `RiskManager.can_trade`: denies unless the bot state is `RUNNING`,
    no circuit breaker is tripped and today's realised loss is below
    the configured limit; the daily-loss failure also transitions the
    bot state to `HALTED_DAILY_LOSS`. `tripped` is the list returned by
    `get_tripped_breakers`, `limit` the configured
    `daily_loss_limit_usd`. -/
def canTrade (state : String) (tripped : List String)
    (dailyRow : Option ℚ) (limit : ℚ) : CanTradeResult :=
  if state ≠ "RUNNING" then
    ⟨false, "Bot state is " ++ state, none⟩
  else if tripped ≠ [] then
    ⟨false, "Circuit breakers tripped: " ++ String.intercalate ", " tripped, none⟩
  else if getDailyLoss dailyRow ≥ limit then
    ⟨false, "Daily loss limit reached", some "HALTED_DAILY_LOSS"⟩
  else
    ⟨true, "Trading allowed", none⟩

/-! ## Take profit / stop loss (`risk_service.py`) -/

/-- The clamp `max(Decimal("0.01"), min(Decimal("0.99"), x))` applied
    to both exit prices in `calculate_exit_prices`. -/
def clampExit (x : ℚ) : ℚ := max (1/100) (min (99/100) x)

/-- `RiskManager.calculate_exit_prices`: given the entry price and the
    position side, returns `(take_profit, stop_loss)` using
    `tp = TAKE_PROFIT_PCT/100`, `sl = STOP_LOSS_PCT/100` and the fixed
    fee buffer `0.02`; any side other than `"YES"` takes the NO branch. -/
def calculateExitPrices (s : Settings) (entry_price : ℚ) (side : String) :
    ℚ × ℚ :=
  let tp_pct := s.TAKE_PROFIT_PCT / 100
  let sl_pct := s.STOP_LOSS_PCT / 100
  let fee_rate : ℚ := 2/100
  if side == "YES" then
    (clampExit (entry_price * (1 + tp_pct + fee_rate)),
     clampExit (entry_price * (1 - sl_pct - fee_rate)))
  else
    (clampExit (entry_price * (1 - tp_pct - fee_rate)),
     clampExit (entry_price * (1 + sl_pct + fee_rate)))

/-- `RiskManager.should_exit_position`: compares the current price to
    the computed exit prices; returns the flag and the exit reason. -/
def shouldExitPosition (s : Settings) (entry_price current_price : ℚ)
    (side : String) : Bool × String :=
  let exits := calculateExitPrices s entry_price side
  let tp := exits.1
  let sl := exits.2
  if side == "YES" then
    if current_price ≥ tp then (true, "take_profit")
    else if current_price ≤ sl then (true, "stop_loss")
    else (false, "")
  else
    if current_price ≤ tp then (true, "take_profit")
    else if current_price ≥ sl then (true, "stop_loss")
    else (false, "")

/-! ## TradingService: order placement and positions
    (`app/services/trading_service.py`) -/

/-- A row of the `orders` table as inserted/updated by
    `place_limit_order`. -/
structure OrderRow where
  order_id : String
  market_id : ℕ
  decision_id : Option ℕ
  side : String
  token_id : String
  price : ℚ
  size : ℚ
  status : String
  error_message : Option String
deriving Repr, DecidableEq

/-- Outcome of the try-block around the venue call in
    `place_limit_order`: either an HTTP response (status code and body
    text) or an exception (signing failure, timeout, connection error)
    carrying its message. -/
inductive Venue where
  | http (code : ℕ) (body : String)
  | transportError (msg : String)
deriving Repr, DecidableEq

/-- One externally visible step of `place_limit_order`, in program
    order: a database insert of an order row, the POST to the venue, or
    a status update persisted against the row. -/
inductive DbStep where
  | insertOrder (row : OrderRow)
  | netPost
  | setStatus (status : String) (err : Option String)
deriving Repr, DecidableEq

/-- The non-exceptional result of `place_limit_order`: the ordered list
    of steps it performed and the `status` field of the returned dict. -/
structure PlaceOk where
  steps : List DbStep
  retStatus : String
deriving Repr, DecidableEq

/-- `TradingService.place_limit_order`: validates the inputs (raising
    before touching the database), persists the `pending` row, then —
    if credentials are configured — signs and POSTs the order, mapping
    an HTTP 200 to `open`, any other HTTP status to `rejected` with the
    body persisted as `error_message`, and an exception to `error` with
    its text persisted. `localId` is the fresh `uuid4` assigned at
    entry; `hasCreds` is `api_key and private_key` being configured. -/
def placeLimitOrder (hasCreds : Bool) (venue : Venue)
    (localId token_id side : String) (price size : ℚ)
    (market_id : ℕ) (decision_id : Option ℕ) : Except String PlaceOk :=
  if price ≤ 0 ∨ 1 ≤ price then
    Except.error "Invalid price"
  else if size ≤ 0 then
    Except.error "Invalid size"
  else
    let row : OrderRow :=
      ⟨localId, market_id, decision_id, side, token_id, price, size,
       "pending", none⟩
    if !hasCreds then
      Except.ok ⟨[DbStep.insertOrder row], "simulated"⟩
    else
      match venue with
      | Venue.http code body =>
          if code = 200 then
            Except.ok ⟨[DbStep.insertOrder row, DbStep.netPost,
                        DbStep.setStatus "open" none], "open"⟩
          else
            Except.ok ⟨[DbStep.insertOrder row, DbStep.netPost,
                        DbStep.setStatus "rejected" (some body)], "rejected"⟩
      | Venue.transportError msg =>
          Except.ok ⟨[DbStep.insertOrder row, DbStep.netPost,
                      DbStep.setStatus "error" (some msg)], "error"⟩

/-- An orderbook snapshot as returned by
    `MarketService.fetch_orderbook`: `best_bid`/`best_ask` are `None`
    when that side of the book is empty (or its top price is zero,
    which the producing code also maps to `None` via truthiness). -/
structure OrderbookSnap where
  best_bid : Option ℚ
  best_ask : Option ℚ
  bid_depth : ℚ
  ask_depth : ℚ
deriving Repr, DecidableEq

/-- Python truthiness of an optional price: false for `None` and for
    a zero value. -/
def truthyPrice (v : Option ℚ) : Bool :=
  match v with
  | none => false
  | some x => !(x == 0)

/-- The default `slippage_bps` argument of
    `place_marketable_limit_order`. -/
def defaultSlippageBps : ℤ := 100

/-- `TradingService.place_marketable_limit_order`: derives the
    aggressive price from the orderbook snapshot (`ob` is the
    `fetch_orderbook` result, `none` on fetch failure) and delegates to
    `place_limit_order`; raises before persisting anything when the
    book or the relevant side is missing. -/
def placeMarketableLimitOrder (hasCreds : Bool) (venue : Venue)
    (ob : Option OrderbookSnap) (localId token_id side : String)
    (size : ℚ) (market_id : ℕ) (decision_id : Option ℕ)
    (slippage_bps : ℤ) : Except String PlaceOk :=
  match ob with
  | none => Except.error "Could not fetch orderbook"
  | some book =>
    if side == "BUY" then
      if !truthyPrice book.best_ask then
        Except.error "No asks in orderbook"
      else
        let price := min (book.best_ask.getD 0 + (slippage_bps : ℚ) / 10000)
          (99/100)
        placeLimitOrder hasCreds venue localId token_id side price size
          market_id decision_id
    else
      if !truthyPrice book.best_bid then
        Except.error "No bids in orderbook"
      else
        let price := max (book.best_bid.getD 0 - (slippage_bps : ℚ) / 10000)
          (1/100)
        placeLimitOrder hasCreds venue localId token_id side price size
          market_id decision_id

/-- `TradingService.update_position`: `existing` is the open position
    found for `(market_id, token_id)`, if any. On an existing position
    the code branches on the *resulting* size: non-positive closes the
    position (size zeroed, `closed_at` recorded); positive recomputes
    the size-weighted average entry price — in both the add and the
    partial-reduce case. -/
def updatePosition (existing : Option Position) (market_id : ℕ)
    (token_id side : String) (size_change price : ℚ) : Position :=
  match existing with
  | some p =>
      let new_size := p.size + size_change
      if new_size ≤ 0 then
        { p with status := "closed", closedAtSet := true, size := 0 }
      else
        { p with
            avg_entry_price :=
              (p.size * p.avg_entry_price + size_change * price) / new_size,
            size := new_size }
  | none =>
      ⟨market_id, token_id, side, size_change, price, "open", false⟩

/-! ## StrategyService: signal generation
    (`app/services/strategy_service.py`) -/

/-- A 15-minute candle row (the fields `analyze_asset` extracts). -/
structure Candle where
  open_price : ℚ
  high : ℚ
  low : ℚ
  close : ℚ
  volume : ℚ
deriving Repr, DecidableEq

/-- The feature map entries `_generate_signal` scores, each `none` when
    the corresponding key is absent from the features dict. -/
structure Features where
  momentum_3 : Option ℚ
  momentum_5 : Option ℚ
  momentum_10 : Option ℚ
  ma_5_10_cross : Option ℚ
  ma_5_20_cross : Option ℚ
  rsi : Option ℚ
  zscore : Option ℚ
  trend_slope : Option ℚ
deriving Repr, DecidableEq

/-- One scoring block of `_generate_signal`: if the feature is present
    its weight joins `total_weight`, and the value adds the weight to
    the bullish score when `bull` holds, else to the bearish score when
    `bear` holds. State is `(bullish_score, bearish_score, total_weight)`. -/
def scoreFeature (s : ℚ × ℚ × ℚ) (v : Option ℚ) (w : ℚ)
    (bull bear : ℚ → Bool) : ℚ × ℚ × ℚ :=
  match v with
  | none => s
  | some x =>
      if bull x then (s.1 + w, s.2.1, s.2.2 + w)
      else if bear x then (s.1, s.2.1 + w, s.2.2 + w)
      else (s.1, s.2.1, s.2.2 + w)

/-- The accumulated `(bullish_score, bearish_score, total_weight)` of
    `_generate_signal`: momentum features at weight 2 with a ±0.005
    threshold, MA crossovers at weight 1.5 (bearish whenever not
    strictly positive), RSI at 1.5 (bullish < 30, bearish > 70),
    z-score at 1 (bullish < −1.5, bearish > 1.5), trend slope at 2
    (sign test). -/
def signalScores (f : Features) : ℚ × ℚ × ℚ :=
  let s0 : ℚ × ℚ × ℚ := (0, 0, 0)
  let s1 := scoreFeature s0 f.momentum_3 2
    (fun x => decide (x > 1/200)) (fun x => decide (x < -(1/200)))
  let s2 := scoreFeature s1 f.momentum_5 2
    (fun x => decide (x > 1/200)) (fun x => decide (x < -(1/200)))
  let s3 := scoreFeature s2 f.momentum_10 2
    (fun x => decide (x > 1/200)) (fun x => decide (x < -(1/200)))
  let s4 := scoreFeature s3 f.ma_5_10_cross (3/2)
    (fun x => decide (x > 0)) (fun _ => true)
  let s5 := scoreFeature s4 f.ma_5_20_cross (3/2)
    (fun x => decide (x > 0)) (fun _ => true)
  let s6 := scoreFeature s5 f.rsi (3/2)
    (fun x => decide (x < 30)) (fun x => decide (x > 70))
  let s7 := scoreFeature s6 f.zscore 1
    (fun x => decide (x < -(3/2))) (fun x => decide (x > 3/2))
  scoreFeature s7 f.trend_slope 2
    (fun x => decide (x > 0)) (fun x => decide (x < 0))

/-- The net score `(bullish − bearish) / total_weight` (0 when the
    total weight is 0, matching the guarded early return). -/
def netScore (f : Features) : ℚ :=
  let s := signalScores f
  (s.1 - s.2.1) / s.2.2

/-- `StrategyService._generate_signal`: returns `(signal, confidence)`,
    with `UP` above net 0.3, `DOWN` below −0.3, otherwise `NEUTRAL`
    with confidence zeroed; confidence is `abs(net)` capped at 0.95. -/
def generateSignal (f : Features) : String × ℚ :=
  let s := signalScores f
  let total_weight := s.2.2
  if total_weight = 0 then ("NEUTRAL", 0)
  else
    let net := (s.1 - s.2.1) / total_weight
    let conf := |net|
    if net > 3/10 then ("UP", min conf (19/20))
    else if net < -(3/10) then ("DOWN", min conf (19/20))
    else ("NEUTRAL", 0)

/-- A row of the `decisions` table as written by
    `StrategyService._store_decision` (always with `executed=False`). -/
structure DecisionRow where
  decisionId : ℕ
  asset : String
  direction : String
  confidence : ℚ
  executed : Bool
deriving Repr, DecidableEq

/-- `StrategyService._store_decision`: inserts a decision row with
    `executed=False`; `did` is the fresh primary key. -/
def storeDecision (did : ℕ) (asset signal : String) (conf : ℚ) : DecisionRow :=
  ⟨did, asset, signal, conf, false⟩

/-- The outcome of `StrategyService.analyze_asset`: the returned
    signal/confidence and the decision rows it stored. -/
structure AnalyzeResult where
  signal : String
  confidence : ℚ
  storedDecisions : List DecisionRow
deriving Repr, DecidableEq

/-- `StrategyService.analyze_asset` over the candles read from the
    database: with fewer than `lookback_periods = 20` candles it
    returns `NEUTRAL`/0 without storing anything; otherwise it computes
    the features, generates the signal and stores one decision row.
    The numeric feature extraction (`_calculate_features`, float and
    numpy arithmetic including standard deviations) is passed in as
    `featuresOf`; the claims proved here do not depend on its values. -/
def analyzeAsset (featuresOf : List Candle → Features) (asset : String)
    (did : ℕ) (candles : List Candle) : AnalyzeResult :=
  if candles.length < 20 then ⟨"NEUTRAL", 0, []⟩
  else
    let sc := generateSignal (featuresOf candles)
    ⟨sc.1, sc.2, [storeDecision did asset sc.1 sc.2]⟩

/-! ## TradingWorker (`app/workers/trading_worker.py`) -/

/-- Python's `round(x, 2)` (round half to even at two decimals), as
    applied by `_calculate_position_size`. -/
def roundHalfEven (x : ℚ) : ℤ :=
  let fl := ⌊x⌋
  let frac := x - fl
  if frac < 1/2 then fl
  else if frac > 1/2 then fl + 1
  else if fl % 2 = 0 then fl else fl + 1

/-- Round to two decimal places, half to even. -/
def round2 (x : ℚ) : ℚ := (roundHalfEven (x * 100) : ℚ) / 100

/-- `TradingWorker._calculate_position_size`: scales the base portfolio
    percentage of the hard-coded 500 USD portfolio by
    `0.5 + confidence * 0.5`, caps at `MAX_MARKET_USD`, rounds to two
    decimals. -/
def calculatePositionSize (s : Settings) (confidence : ℚ) : ℚ :=
  let base_pct := s.PORTFOLIO_TRADE_PCT / 100
  let confidence_factor := 1/2 + confidence * (1/2)
  let size := 500 * base_pct * confidence_factor
  round2 (min size s.MAX_MARKET_USD)

/-- `MarketService.check_liquidity`: false when the orderbook fetch
    failed, else compares total top-10 depth to the minimum. -/
def checkLiquidity (ob : Option OrderbookSnap) (min_liquidity_usd : ℚ) :
    Bool :=
  match ob with
  | none => false
  | some book => decide (book.bid_depth + book.ask_depth ≥ min_liquidity_usd)

/-- The tradable-market dict `get_tradable_market` returns (the fields
    `_process_asset` reads). -/
structure MarketInfo where
  id : ℕ
  yes_token_id : Option String
  no_token_id : Option String
deriving Repr, DecidableEq

/-- Python truthiness of the optional token id (`if not token_id`):
    false for `None` and for the empty string. -/
def truthyToken (v : Option String) : Bool :=
  match v with
  | none => false
  | some s => !(s == "")

/-- Everything one `_process_asset` call reads from the clock, the
    database and the network, passed explicitly: the per-asset analysis
    timer, the staleness probe, the candles, the tradable market, the
    two independent orderbook fetches (liquidity check and marketable
    pricing), the risk-gate state, and the venue interaction. -/
structure AssetCycleEnv where
  lastAnalysis : Option ℤ
  now : ℤ
  staleData : Bool
  candles : List Candle
  market : Option MarketInfo
  liquidityBook : Option OrderbookSnap
  tradeBook : Option OrderbookSnap
  riskCfg : RiskConfig
  markets : List MarketRow
  positions : List Position
  dailyRow : Option ℚ
  hasCreds : Bool
  venue : Venue
  localId : String
  decisionId : ℕ

/-- The per-asset analysis timer gate of `_process_asset`: analyze when
    never analyzed, or at least `analysis_interval = 300` seconds ago. -/
def analysisDue (env : AssetCycleEnv) : Bool :=
  match env.lastAnalysis with
  | none => true
  | some t => decide (env.now - t ≥ 300)

/-- What one `_process_asset` call did: the decision rows stored, the
    order-placement steps performed, and the breaker tripped (if any). -/
structure CycleOutcome where
  decisions : List DecisionRow
  steps : List DbStep
  breakerTripped : Option String
deriving Repr, DecidableEq

/-- `TradingWorker._process_asset`: skips when the analysis timer has
    not elapsed; trips `stale_data` on a stale price feed; analyzes the
    asset (storing the decision); then gates on signal strength
    (non-NEUTRAL and confidence ≥ 0.5), tradable market, token id,
    liquidity, and the risk check, before submitting a marketable BUY —
    passing no `decision_id` (the source call site omits it, so it
    defaults to `None`). The portfolio value is the hard-coded 500. -/
def processAsset (s : Settings) (featuresOf : List Candle → Features)
    (env : AssetCycleEnv) (asset : String) : CycleOutcome :=
  if !analysisDue env then ⟨[], [], none⟩
  else if env.staleData then ⟨[], [], some "stale_data"⟩
  else
    let analysis := analyzeAsset featuresOf asset env.decisionId env.candles
    if analysis.signal == "NEUTRAL" || decide (analysis.confidence < 1/2) then
      ⟨analysis.storedDecisions, [], none⟩
    else
      match env.market with
      | none => ⟨analysis.storedDecisions, [], none⟩
      | some m =>
        let token_id :=
          if analysis.signal == "UP" then m.yes_token_id else m.no_token_id
        if !truthyToken token_id then ⟨analysis.storedDecisions, [], none⟩
        else if !checkLiquidity env.liquidityBook s.MIN_LIQUIDITY_USD then
          ⟨analysis.storedDecisions, [], none⟩
        else
          let size_usd := calculatePositionSize s analysis.confidence
          let risk := checkPositionRisk env.riskCfg env.markets env.positions
            env.dailyRow asset size_usd 500
          if !risk.1 then ⟨analysis.storedDecisions, [], none⟩
          else
            match placeMarketableLimitOrder env.hasCreds env.venue
                env.tradeBook env.localId (token_id.getD "") "BUY" size_usd
                m.id none defaultSlippageBps with
            | Except.error _ => ⟨analysis.storedDecisions, [], none⟩
            | Except.ok ok => ⟨analysis.storedDecisions, ok.steps, none⟩

/-- The order rows inserted among a list of database steps. -/
def ordersInserted (steps : List DbStep) : List OrderRow :=
  steps.filterMap (fun st =>
    match st with
    | DbStep.insertOrder row => some row
    | _ => none)

/-! ## RiskManager.load_config cache (`risk_service.py`) -/

/-- The cache gate of `RiskManager.load_config`: the cached dict is
    returned without touching the store iff `force` is off, the cache
    is non-empty, a previous load happened, and
    `(now - last_load).seconds < 60`. Python's `timedelta.seconds` is
    the day-remainder component, i.e. `total_seconds mod 86400` for a
    non-negative delta — embedded here as written in the source.
    `lastLoad`/`now` are UTC epoch seconds with `lastLoad ≤ now`. -/
def loadConfigUsesCache (force : Bool) (cacheNonempty : Bool)
    (lastLoad : Option ℕ) (now : ℕ) : Bool :=
  match lastLoad with
  | none => false
  | some t => !force && cacheNonempty && decide ((now - t) % 86400 < 60)

/-! ## Concrete rows used as witnesses and counterexamples -/

/-- Markets table for the correlation-cap example: one BTC market. -/
def corrExampleMarkets : List MarketRow := [⟨1, "BTC"⟩]

/-- Positions table for the correlation-cap example: one open BTC
    position of 320 shares at 0.50, i.e. 160 USD of exposure. -/
def corrExamplePositions : List Position :=
  [⟨1, "tokB", "YES", 320, 1/2, "open", false⟩]

/-- An open position of 10 shares at average entry 0.50. -/
def cpos10 : Position := ⟨1, "tok", "YES", 10, 1/2, "open", false⟩

/-- A strongly bullish feature map: momentum_3 at +1%, a positive
    5/10 MA cross and a positive trend slope — net score 1. -/
def strongFeatures : Features :=
  ⟨some (1/100), none, none, some 1, none, none, none, some 1⟩

/-- A weakly bullish feature map: positive 5/10 cross, negative 5/20
    cross, positive trend slope — net score 0.4. -/
def weakFeatures : Features :=
  ⟨none, none, none, some 1, some (-1), none, none, some 1⟩

/-- Twenty constant candles (enough for the lookback gate). -/
def c20 : List Candle := List.replicate 20 ⟨1, 1, 1, 1, 1⟩

/-- An orderbook with best bid 0.50, best ask 0.52 and 600 USD of
    total top-10 depth. -/
def book600 : OrderbookSnap := ⟨some (1/2), some (13/25), 300, 300⟩

/-- A fully permissive per-asset cycle environment: analysis due,
    fresh data, twenty candles, a tradable market with both tokens,
    ample liquidity, no open positions or losses, credentials
    configured, and a venue that answers HTTP 200. -/
def tradeEnv : AssetCycleEnv :=
  ⟨none, 0, false, c20, some ⟨7, some "YT", some "NT"⟩, some book600,
   some book600, defaultRiskConfig, [], [], none, true, Venue.http 200 "",
   "uuid-1", 5⟩

/-! # Theorems -/

/-- `getDailyLoss` never returns a negative value. -/
theorem getDailyLoss_nonneg (r : Option ℚ) : 0 ≤ getDailyLoss r := by
  unfold getDailyLoss
  cases r with
  | none => exact le_refl 0
  | some v =>
      dsimp only
      split_ifs with h
      · linarith
      · exact le_refl 0

/-- Claim C1 (amended): on a fill against an existing open position,
    a positive `size_change` re-averages the entry price and grows the
    size; a fill driving the resulting size to zero or below closes the
    position with size 0 and `closed_at` recorded; a negative
    `size_change` with positive resulting size shrinks the size but
    also recomputes `avg_entry_price` by the same weighted formula
    (so the average moves whenever the fill price differs from it). -/
theorem update_position_fill_semantics (p : Position) (mid : ℕ)
    (tok side : String) (sc price : ℚ) (hpos : 0 < p.size) :
    (0 < sc →
      updatePosition (some p) mid tok side sc price =
        { p with
            avg_entry_price :=
              (p.size * p.avg_entry_price + sc * price) / (p.size + sc),
            size := p.size + sc }) ∧
    (p.size + sc ≤ 0 →
      updatePosition (some p) mid tok side sc price =
        { p with status := "closed", closedAtSet := true, size := 0 }) ∧
    (sc ≤ 0 → 0 < p.size + sc →
      updatePosition (some p) mid tok side sc price =
        { p with
            avg_entry_price :=
              (p.size * p.avg_entry_price + sc * price) / (p.size + sc),
            size := p.size + sc }) := by
  refine ⟨?_, ?_, ?_⟩
  · intro hsc
    have h : ¬ (p.size + sc ≤ 0) := by linarith
    simp [updatePosition, h]
  · intro h
    simp [updatePosition, h]
  · intro hsc h
    have h2 : ¬ (p.size + sc ≤ 0) := by linarith
    simp [updatePosition, h2]

/-- Witness for C1: adding 2 shares at 0.60 to 10 shares at 0.50 gives
    12 shares at the weighted average 31/60. -/
theorem update_position_fill_semantics_witness :
    updatePosition (some cpos10) 1 "tok" "YES" 2 (3/5) =
      ⟨1, "tok", "YES", 12, 31/60, "open", false⟩ := by
  have h := (update_position_fill_semantics cpos10 1 "tok" "YES" 2 (3/5)
    (by norm_num [cpos10])).1 (by norm_num)
  rw [h]
  norm_num [cpos10]

/-- Counterexample to claim C1 as stated: a partial exit
    (`size_change = -5` on 10 shares at average 0.50, fill price 0.70)
    leaves an open position of 5 shares but moves `avg_entry_price`
    from 0.50 to 0.30 rather than leaving it unchanged. -/
theorem update_position_partial_exit_moves_avg :
    (updatePosition (some cpos10) 1 "tok" "YES" (-5) (7/10)).size = 5 ∧
    (updatePosition (some cpos10) 1 "tok" "YES" (-5) (7/10)).status = "open" ∧
    (updatePosition (some cpos10) 1 "tok" "YES" (-5) (7/10)).avg_entry_price
      = 3/10 ∧
    cpos10.avg_entry_price = 1/2 ∧ ((3 : ℚ)/10 ≠ 1/2) := by
  have h : updatePosition (some cpos10) 1 "tok" "YES" (-5) (7/10) =
      ⟨1, "tok", "YES", 5, 3/10, "open", false⟩ := by
    simp [updatePosition, cpos10]
    norm_num
  rw [h]
  refine ⟨rfl, rfl, rfl, rfl, by norm_num⟩

/-- Claim C9: the `load_config` cache gate compares
    `timedelta.seconds` — the day-remainder component — against 60, so
    a cache that is exactly 86400 seconds (one full day) old is still
    served from memory, although it is far older than 60 seconds. -/
theorem load_config_cache_day_wrap :
    loadConfigUsesCache false true (some 0) 86400 = true ∧
    (60 : ℕ) < 86400 := by
  exact ⟨rfl, by norm_num⟩

/-- Claim C3: `can_trade` allows trading iff the bot state is RUNNING,
    no breaker is tripped and today's realised loss is strictly below
    the limit; the layers are evaluated in that order, the first
    failing one producing the reason; the daily-loss failure (reached
    only with state RUNNING and no tripped breaker) transitions the bot
    state to HALTED_DAILY_LOSS and denies. -/
theorem can_trade_layers :
    (∀ (state : String) (tripped : List String) (dailyRow : Option ℚ)
        (limit : ℚ),
      (canTrade state tripped dailyRow limit).allowed = true ↔
        (state = "RUNNING" ∧ tripped = [] ∧
          getDailyLoss dailyRow < limit)) ∧
    (∀ (state : String) (tripped : List String) (dailyRow : Option ℚ)
        (limit : ℚ), state ≠ "RUNNING" →
      canTrade state tripped dailyRow limit =
        ⟨false, "Bot state is " ++ state, none⟩) ∧
    (∀ (tripped : List String) (dailyRow : Option ℚ) (limit : ℚ),
        tripped ≠ [] →
      canTrade "RUNNING" tripped dailyRow limit =
        ⟨false, "Circuit breakers tripped: " ++
          String.intercalate ", " tripped, none⟩) ∧
    (∀ (dailyRow : Option ℚ) (limit : ℚ), getDailyLoss dailyRow ≥ limit →
      canTrade "RUNNING" [] dailyRow limit =
        ⟨false, "Daily loss limit reached", some "HALTED_DAILY_LOSS"⟩) := by
  refine ⟨?_, ?_, ?_, ?_⟩
  · intro state tripped dailyRow limit
    simp only [canTrade]
    split_ifs with h1 h2 h3
    · simp [h1]
    · simp_all
    · push_neg at h1
      simp_all [not_lt.mpr h3]
    · push_neg at h1 h2
      simp_all [lt_of_not_ge h3]
  · intro state tripped dailyRow limit h
    simp [canTrade, h]
  · intro tripped dailyRow limit h
    simp [canTrade, h]
  · intro dailyRow limit h
    simp [canTrade, h]

/-- Witness for C3: with state RUNNING, no tripped breakers, a realised
    PnL of −30 and a limit of 25, trading is denied and the bot state
    moves to HALTED_DAILY_LOSS. -/
theorem can_trade_layers_witness :
    canTrade "RUNNING" [] (some (-30)) 25 =
      ⟨false, "Daily loss limit reached", some "HALTED_DAILY_LOSS"⟩ := by
  exact can_trade_layers.2.2.2 (some (-30)) 25 (by norm_num [getDailyLoss])

/-- Claim C2: the position risk check passes iff the trade-size,
    per-market, correlation-basket, open-position-count and daily-loss
    limits all hold (the nested 80%-warn gate collapses to the plain
    daily-loss comparison because the realised loss is never negative);
    and the spec's correlation example — portfolio 500, basket cap 35%,
    existing exposure 160 USD, candidate 20 USD — is denied with the
    `correlation_limit` check (and only it) failing. -/
theorem check_position_risk_pass_iff :
    (∀ (cfg : RiskConfig) (markets : List MarketRow)
        (positions : List Position) (dailyRow : Option ℚ) (asset : String)
        (size_usd portfolio_value : ℚ),
      (checkPositionRisk cfg markets positions dailyRow asset size_usd
          portfolio_value).1 = true ↔
        (size_usd ≤ portfolio_value * cfg.portfolio_trade_pct / 100 ∧
         size_usd ≤ cfg.max_market_usd ∧
         totalCryptoExposure markets positions + size_usd ≤
           portfolio_value * cfg.correlation_max_basket_pct / 100 ∧
         openPositionCount positions < cfg.max_open_positions ∧
         getDailyLoss dailyRow < cfg.daily_loss_limit_usd)) ∧
    (totalCryptoExposure corrExampleMarkets corrExamplePositions = 160 ∧
     (checkPositionRisk defaultRiskConfig corrExampleMarkets
        corrExamplePositions none "SOL" 20 500).1 = false ∧
     (checkPositionRisk defaultRiskConfig corrExampleMarkets
        corrExamplePositions none "SOL" 20 500).2 =
       ⟨true, true, false, true, true⟩) := by
  constructor
  · intro cfg markets positions dailyRow asset size_usd portfolio_value
    have hd : (0 : ℚ) ≤ getDailyLoss dailyRow := getDailyLoss_nonneg dailyRow
    simp only [checkPositionRisk, Bool.and_eq_true]
    split_ifs with h1 h2 h3 h4 h5 h6 <;>
      simp_all [not_lt, not_le] <;>
      intros <;> linarith
  · refine ⟨?_, ?_, ?_⟩
    · simp [totalCryptoExposure, assetExposure, corrExampleMarkets,
        corrExamplePositions]
      norm_num
    · simp [checkPositionRisk, defaultRiskConfig, corrExampleMarkets,
        corrExamplePositions, totalCryptoExposure, assetExposure,
        openPositionCount, getDailyLoss]
      norm_num
    · simp [checkPositionRisk, defaultRiskConfig, corrExampleMarkets,
        corrExamplePositions, totalCryptoExposure, assetExposure,
        openPositionCount, getDailyLoss]
      norm_num

/-- Claim C5: for an entry price in (0,1), the YES exit prices are
    `e·(1+tp+f)` / `e·(1−sl−f)` and the NO exit prices `e·(1−tp−f)` /
    `e·(1+sl+f)` with `f = 0.02`, both clamped into [0.01, 0.99]; and
    the exit flag fires exactly on (YES) `current ≥ take ∨ current ≤
    stop`, (NO) `current ≤ take ∨ current ≥ stop`. -/
theorem exit_pricing_spec (s : Settings) (e current : ℚ)
    (he0 : 0 < e) (he1 : e < 1) :
    calculateExitPrices s e "YES" =
      (clampExit (e * (1 + s.TAKE_PROFIT_PCT / 100 + 2/100)),
       clampExit (e * (1 - s.STOP_LOSS_PCT / 100 - 2/100))) ∧
    calculateExitPrices s e "NO" =
      (clampExit (e * (1 - s.TAKE_PROFIT_PCT / 100 - 2/100)),
       clampExit (e * (1 + s.STOP_LOSS_PCT / 100 + 2/100))) ∧
    (∀ x : ℚ, 1/100 ≤ clampExit x ∧ clampExit x ≤ 99/100) ∧
    ((shouldExitPosition s e current "YES").1 = true ↔
      ((calculateExitPrices s e "YES").1 ≤ current ∨
        current ≤ (calculateExitPrices s e "YES").2)) ∧
    ((shouldExitPosition s e current "NO").1 = true ↔
      (current ≤ (calculateExitPrices s e "NO").1 ∨
        (calculateExitPrices s e "NO").2 ≤ current)) := by
  refine ⟨rfl, rfl, ?_, ?_, ?_⟩
  · intro x
    refine ⟨le_max_left _ _, max_le (by norm_num) (min_le_left _ _)⟩
  · simp only [shouldExitPosition]
    split_ifs with h1 h2 <;> simp_all [ge_iff_le, not_le] <;> linarith
  · simp only [shouldExitPosition]
    split_ifs with h1 h2 <;> simp_all [ge_iff_le, not_le] <;> linarith

/-- Witness for C5: entry 0.50 YES with the default 8% take-profit
    gives take 0.55; the spec's scenario price 0.56 triggers the exit. -/
theorem exit_pricing_spec_witness :
    (calculateExitPrices defaultSettings (1/2) "YES").1 = 11/20 ∧
    (shouldExitPosition defaultSettings (1/2) (56/100) "YES").1 = true := by
  have h := exit_pricing_spec defaultSettings (1/2) (56/100)
    (by norm_num) (by norm_num)
  refine ⟨?_, ?_⟩
  · rw [h.1]
    simp [clampExit, defaultSettings]
    norm_num
  · exact h.2.2.2.1.mpr (Or.inl (by
      rw [h.1]
      simp [clampExit, defaultSettings]
      norm_num))

/-- Claim C4 (amended): `place_limit_order` rejects invalid inputs
    before touching the database; persists the `pending` row as its
    first step, before any network interaction; returns `simulated`
    without a network call when credentials are missing; and maps an
    HTTP 200 to `open`, any other HTTP status (4xx, but also other 2xx
    and 5xx) to `rejected` with the body persisted, and a transport
    failure to `error` with the exception text persisted. -/
theorem place_limit_order_lifecycle (hasCreds : Bool) (venue : Venue)
    (localId tok side : String) (price size : ℚ) (mid : ℕ)
    (did : Option ℕ) :
    ((price ≤ 0 ∨ 1 ≤ price ∨ size ≤ 0) →
      ∃ msg, placeLimitOrder hasCreds venue localId tok side price size
          mid did = Except.error msg) ∧
    (0 < price → price < 1 → 0 < size →
      (∀ steps ret,
        placeLimitOrder hasCreds venue localId tok side price size mid did =
          Except.ok ⟨steps, ret⟩ →
        steps.head? = some (DbStep.insertOrder
          ⟨localId, mid, did, side, tok, price, size, "pending", none⟩)) ∧
      (hasCreds = false →
        placeLimitOrder hasCreds venue localId tok side price size mid did =
          Except.ok ⟨[DbStep.insertOrder
            ⟨localId, mid, did, side, tok, price, size, "pending", none⟩],
            "simulated"⟩) ∧
      (hasCreds = true → ∀ code body,
        venue = Venue.http code body →
        (code = 200 →
          placeLimitOrder hasCreds venue localId tok side price size mid did =
            Except.ok ⟨[DbStep.insertOrder
              ⟨localId, mid, did, side, tok, price, size, "pending", none⟩,
              DbStep.netPost, DbStep.setStatus "open" none], "open"⟩) ∧
        (code ≠ 200 →
          placeLimitOrder hasCreds venue localId tok side price size mid did =
            Except.ok ⟨[DbStep.insertOrder
              ⟨localId, mid, did, side, tok, price, size, "pending", none⟩,
              DbStep.netPost, DbStep.setStatus "rejected" (some body)],
              "rejected"⟩)) ∧
      (hasCreds = true → ∀ msg, venue = Venue.transportError msg →
        placeLimitOrder hasCreds venue localId tok side price size mid did =
          Except.ok ⟨[DbStep.insertOrder
            ⟨localId, mid, did, side, tok, price, size, "pending", none⟩,
            DbStep.netPost, DbStep.setStatus "error" (some msg)],
            "error"⟩)) := by
  constructor
  · intro h
    rcases h with h | h | h
    · exact ⟨"Invalid price", by simp [placeLimitOrder, h]⟩
    · refine ⟨"Invalid price", by
        simp only [placeLimitOrder]
        rw [if_pos (Or.inr h)]⟩
    · by_cases hp : price ≤ 0 ∨ 1 ≤ price
      · exact ⟨"Invalid price", by
          simp only [placeLimitOrder]
          rw [if_pos hp]⟩
      · exact ⟨"Invalid size", by
          simp only [placeLimitOrder]
          rw [if_neg hp, if_pos h]⟩
  · intro hp0 hp1 hsz
    have hp : ¬ (price ≤ 0 ∨ 1 ≤ price) := by
      push_neg
      exact ⟨hp0, hp1⟩
    have hs : ¬ (size ≤ 0) := by linarith
    refine ⟨?_, ?_, ?_, ?_⟩
    · intro steps ret hok
      simp only [placeLimitOrder] at hok
      rw [if_neg hp, if_neg hs] at hok
      cases hc : hasCreds with
      | false =>
          subst hc
          simp at hok
          rw [← hok.1]
          rfl
      | true =>
          subst hc
          simp at hok
          cases venue with
          | http code body =>
              by_cases h200 : code = 200 <;> simp [h200] at hok <;>
                rw [← hok.1] <;> rfl
          | transportError msg =>
              simp at hok
              rw [← hok.1]
              rfl
    · intro hc
      subst hc
      simp only [placeLimitOrder]
      rw [if_neg hp, if_neg hs]
      rfl
    · intro hc code body hv
      subst hc
      subst hv
      constructor
      · intro h200
        subst h200
        simp only [placeLimitOrder]
        rw [if_neg hp, if_neg hs]
        rfl
      · intro h200
        simp only [placeLimitOrder]
        rw [if_neg hp, if_neg hs]
        simp [h200]
    · intro hc msg hv
      subst hc
      subst hv
      simp only [placeLimitOrder]
      rw [if_neg hp, if_neg hs]
      rfl

/-- Witness for C4: a valid order with credentials and an HTTP 200
    response is persisted `pending` first and ends `open`. -/
theorem place_limit_order_lifecycle_witness :
    placeLimitOrder true (Venue.http 200 "") "uuid-1" "tok" "BUY"
        (1/2) 5 1 none =
      Except.ok ⟨[DbStep.insertOrder
        ⟨"uuid-1", 1, none, "BUY", "tok", 1/2, 5, "pending", none⟩,
        DbStep.netPost, DbStep.setStatus "open" none], "open"⟩ := by
  exact (((place_limit_order_lifecycle true (Venue.http 200 "") "uuid-1"
    "tok" "BUY" (1/2) 5 1 none).2 (by norm_num) (by norm_num)
    (by norm_num)).2.2.1 rfl 200 "" rfl).1 rfl

/-- Counterexample to claim C4 as stated: an HTTP 201 — a 2xx venue
    response — is persisted as `rejected`, not `open`; only the exact
    status 200 yields `open`. -/
theorem place_limit_order_201_rejected :
    placeLimitOrder true (Venue.http 201 "Created") "uuid-2" "tok" "BUY"
        (1/2) 5 1 none =
      Except.ok ⟨[DbStep.insertOrder
        ⟨"uuid-2", 1, none, "BUY", "tok", 1/2, 5, "pending", none⟩,
        DbStep.netPost, DbStep.setStatus "rejected" (some "Created")],
        "rejected"⟩ ∧
    (200 ≤ 201 ∧ 201 < 300) ∧ "rejected" ≠ "open" := by
  refine ⟨?_, by norm_num, by decide⟩
  simp only [placeLimitOrder]
  norm_num

/-- Claim C6: a marketable BUY is priced `best_ask + slippage/10000`
    capped at 0.99, a marketable SELL `best_bid − slippage/10000`
    floored at 0.01, the default slippage is 100 bps, and an empty
    relevant side fails before anything is persisted. -/
theorem marketable_limit_pricing :
    (∀ (hasCreds : Bool) (venue : Venue) (book : OrderbookSnap)
        (localId tok : String) (size : ℚ) (mid : ℕ) (did : Option ℕ)
        (slip : ℤ) (a : ℚ), book.best_ask = some a → a ≠ 0 →
      placeMarketableLimitOrder hasCreds venue (some book) localId tok "BUY"
          size mid did slip =
        placeLimitOrder hasCreds venue localId tok "BUY"
          (min (a + (slip : ℚ) / 10000) (99/100)) size mid did) ∧
    (∀ (hasCreds : Bool) (venue : Venue) (book : OrderbookSnap)
        (localId tok : String) (size : ℚ) (mid : ℕ) (did : Option ℕ)
        (slip : ℤ) (b : ℚ), book.best_bid = some b → b ≠ 0 →
      placeMarketableLimitOrder hasCreds venue (some book) localId tok "SELL"
          size mid did slip =
        placeLimitOrder hasCreds venue localId tok "SELL"
          (max (b - (slip : ℚ) / 10000) (1/100)) size mid did) ∧
    (∀ (hasCreds : Bool) (venue : Venue) (book : OrderbookSnap)
        (localId tok : String) (size : ℚ) (mid : ℕ) (did : Option ℕ)
        (slip : ℤ), book.best_ask = none →
      placeMarketableLimitOrder hasCreds venue (some book) localId tok "BUY"
          size mid did slip = Except.error "No asks in orderbook") ∧
    (∀ (hasCreds : Bool) (venue : Venue) (book : OrderbookSnap)
        (localId tok : String) (size : ℚ) (mid : ℕ) (did : Option ℕ)
        (slip : ℤ), book.best_bid = none →
      placeMarketableLimitOrder hasCreds venue (some book) localId tok "SELL"
          size mid did slip = Except.error "No bids in orderbook") ∧
    defaultSlippageBps = 100 := by
  refine ⟨?_, ?_, ?_, ?_, rfl⟩
  · intro hasCreds venue book localId tok size mid did slip a ha hane
    simp [placeMarketableLimitOrder, truthyPrice, ha, hane]
  · intro hasCreds venue book localId tok size mid did slip b hb hbne
    simp [placeMarketableLimitOrder, truthyPrice, hb, hbne]
  · intro hasCreds venue book localId tok size mid did slip ha
    simp [placeMarketableLimitOrder, truthyPrice, ha]
  · intro hasCreds venue book localId tok size mid did slip hb
    simp [placeMarketableLimitOrder, truthyPrice, hb]

/-- Witness for C6: with best ask 0.52 and the default 100 bps, a
    marketable BUY delegates at price 0.53. -/
theorem marketable_limit_pricing_witness :
    placeMarketableLimitOrder true (Venue.http 200 "")
        (some ⟨some (1/2), some (13/25), 300, 300⟩) "uuid-3" "tok" "BUY"
        5 1 none defaultSlippageBps =
      placeLimitOrder true (Venue.http 200 "") "uuid-3" "tok" "BUY"
        (53/100) 5 1 none := by
  have h := marketable_limit_pricing.1 true (Venue.http 200 "")
    ⟨some (1/2), some (13/25), 300, 300⟩ "uuid-3" "tok" 5 1 none
    defaultSlippageBps (13/25) rfl (by norm_num)
  rw [h]
  norm_num [defaultSlippageBps]

/-- `generateSignal` only ever returns UP, DOWN or NEUTRAL. -/
theorem generateSignal_signal_cases (f : Features) :
    (generateSignal f).1 = "UP" ∨ (generateSignal f).1 = "DOWN" ∨
      (generateSignal f).1 = "NEUTRAL" := by
  simp only [generateSignal]
  split_ifs <;> simp

/-- `analyzeAsset` only ever returns UP, DOWN or NEUTRAL. -/
theorem analyzeAsset_signal_cases (featuresOf : List Candle → Features)
    (asset : String) (did : ℕ) (candles : List Candle) :
    (analyzeAsset featuresOf asset did candles).signal = "UP" ∨
    (analyzeAsset featuresOf asset did candles).signal = "DOWN" ∨
    (analyzeAsset featuresOf asset did candles).signal = "NEUTRAL" := by
  simp only [analyzeAsset]
  split_ifs with h
  · simp
  · exact generateSignal_signal_cases (featuresOf candles)

/-- When the analysis is not NEUTRAL (so at least 20 candles were
    available), exactly one decision row was stored, carrying the
    signal and confidence. -/
theorem analyzeAsset_stored_of_ne (featuresOf : List Candle → Features)
    (asset : String) (did : ℕ) (candles : List Candle)
    (h : (analyzeAsset featuresOf asset did candles).signal ≠ "NEUTRAL") :
    (analyzeAsset featuresOf asset did candles).storedDecisions =
      [storeDecision did asset
        (analyzeAsset featuresOf asset did candles).signal
        (analyzeAsset featuresOf asset did candles).confidence] := by
  by_cases hl : candles.length < 20
  · exact absurd (by simp [analyzeAsset, hl]) h
  · simp [analyzeAsset, hl]

/-- Every decision row `analyzeAsset` stores has `executed = false`. -/
theorem analyzeAsset_stored_not_executed (featuresOf : List Candle → Features)
    (asset : String) (did : ℕ) (candles : List Candle) :
    ((analyzeAsset featuresOf asset did candles).storedDecisions.all
      (fun d => !d.executed)) = true := by
  by_cases hl : candles.length < 20
  · simp [analyzeAsset, hl]
  · simp [analyzeAsset, hl, storeDecision]

/-- Claim C7: the signal is UP iff the net score exceeds 0.3, DOWN iff
    it is below −0.3, NEUTRAL otherwise with confidence 0; UP/DOWN
    confidence is `min(|net|, 0.95)`; and an analysis with fewer than
    20 candles returns NEUTRAL with confidence 0 (storing nothing). -/
theorem signal_thresholds :
    (∀ f : Features,
      ((generateSignal f).1 = "UP" ↔ netScore f > 3/10) ∧
      ((generateSignal f).1 = "DOWN" ↔ netScore f < -(3/10)) ∧
      ((generateSignal f).1 = "NEUTRAL" → (generateSignal f).2 = 0) ∧
      ((generateSignal f).1 = "UP" ∨ (generateSignal f).1 = "DOWN" →
        (generateSignal f).2 = min |netScore f| (19/20))) ∧
    (∀ (featuresOf : List Candle → Features) (asset : String) (did : ℕ)
        (candles : List Candle), candles.length < 20 →
      analyzeAsset featuresOf asset did candles =
        ⟨"NEUTRAL", 0, []⟩) := by
  constructor
  · intro f
    by_cases h0 : (signalScores f).2.2 = 0
    · have hnet : netScore f = 0 := by
        simp [netScore, h0]
      simp [generateSignal, h0, hnet]
      norm_num
    · have hnet : netScore f =
          ((signalScores f).1 - (signalScores f).2.1) / (signalScores f).2.2 :=
        rfl
      simp only [generateSignal, h0, if_false, ← hnet]
      split_ifs with hup hdn
      · refine ⟨by simp [hup], by simp; linarith, by simp, fun _ => rfl⟩
      · refine ⟨by simp [hdn]; linarith, by simp [hdn], by simp, fun _ => rfl⟩
      · refine ⟨by simp [hup], by simp [hdn], fun _ => rfl, by simp⟩
  · intro featuresOf asset did candles h
    simp [analyzeAsset, h]

/-- Witness for C7: a feature map with bullish momentum, MA cross and
    trend (net score 1) yields UP with confidence capped at 0.95, and a
    19-candle analysis yields NEUTRAL with confidence 0. -/
theorem signal_thresholds_witness :
    (generateSignal ⟨some (1/100), none, none, some 1, none, none, none,
        some 1⟩).1 = "UP" ∧
    analyzeAsset (fun _ => ⟨some (1/100), none, none, some 1, none, none,
        none, some 1⟩) "BTC" 0 (List.replicate 19 ⟨1, 1, 1, 1, 1⟩) =
      ⟨"NEUTRAL", 0, []⟩ := by
  constructor
  · refine (signal_thresholds.1 ⟨some (1/100), none, none, some 1, none,
      none, none, some 1⟩).1.mpr ?_
    simp [netScore, signalScores, scoreFeature]
    norm_num
  · exact signal_thresholds.2 _ "BTC" 0 _ (by simp)

/-- Whatever path `_process_asset` takes, the decisions it records are
    exactly those stored by `analyze_asset` (or none at all when the
    analysis was skipped). -/
theorem processAsset_decisions_shape (s : Settings)
    (featuresOf : List Candle → Features) (env : AssetCycleEnv)
    (asset : String) :
    (processAsset s featuresOf env asset).decisions = [] ∨
    (processAsset s featuresOf env asset).decisions =
      (analyzeAsset featuresOf asset env.decisionId
        env.candles).storedDecisions := by
  simp only [processAsset]
  split
  · exact Or.inl rfl
  split
  · exact Or.inl rfl
  right
  repeat' first | rfl | split

/-- Whatever path `_process_asset` takes, its order-placement steps are
    empty unless the signal gate passed (non-NEUTRAL, confidence at
    least 0.5) and a marketable BUY with no decision reference
    succeeded, in which case the steps are that call's steps. -/
theorem processAsset_steps_shape (s : Settings)
    (featuresOf : List Candle → Features) (env : AssetCycleEnv)
    (asset : String) :
    (processAsset s featuresOf env asset).steps = [] ∨
    ((analyzeAsset featuresOf asset env.decisionId env.candles).signal ≠
        "NEUTRAL" ∧
     1/2 ≤ (analyzeAsset featuresOf asset env.decisionId
        env.candles).confidence ∧
     ∃ m ok, env.market = some m ∧
       placeMarketableLimitOrder env.hasCreds env.venue env.tradeBook
           env.localId
           ((if (analyzeAsset featuresOf asset env.decisionId
                env.candles).signal == "UP"
             then m.yes_token_id else m.no_token_id).getD "") "BUY"
           (calculatePositionSize s
             (analyzeAsset featuresOf asset env.decisionId
               env.candles).confidence)
           m.id none defaultSlippageBps = Except.ok ok ∧
       (processAsset s featuresOf env asset).steps = ok.steps) := by
  simp only [processAsset]
  split
  · left
    rfl
  · split
    · left
      rfl
    · split
      · left
        rfl
      · rename_i hgate
        simp only [Bool.or_eq_true, not_or, beq_iff_eq,
          decide_eq_true_eq, not_lt] at hgate
        have hsig : (analyzeAsset featuresOf asset env.decisionId
            env.candles).signal ≠ "NEUTRAL" := hgate.1
        have hconf : 1/2 ≤ (analyzeAsset featuresOf asset env.decisionId
            env.candles).confidence := hgate.2
        split
        · left
          rfl
        · rename_i m hm
          generalize htid : (if (analyzeAsset featuresOf asset env.decisionId
              env.candles).signal == "UP"
            then m.yes_token_id else m.no_token_id) = tid
          split
          · left
            rfl
          · split
            · left
              rfl
            · split
              · left
                rfl
              · split
                · left
                  rfl
                · rename_i ok hok
                  right
                  refine ⟨hsig, hconf, m, ok, hm, ?_, rfl⟩
                  rw [htid]
                  exact hok

/-- A successful `place_limit_order` inserts exactly one order row —
    the `pending` row built from its arguments. -/
theorem placeLimitOrder_ok_rows (hasCreds : Bool) (venue : Venue)
    (localId tok side : String) (price size : ℚ) (mid : ℕ)
    (did : Option ℕ) (ok : PlaceOk)
    (h : placeLimitOrder hasCreds venue localId tok side price size mid
      did = Except.ok ok) :
    ordersInserted ok.steps =
      [⟨localId, mid, did, side, tok, price, size, "pending", none⟩] := by
  cases venue with
  | http code body =>
      simp only [placeLimitOrder] at h
      split_ifs at h with h1 h2 h3 h4
      all_goals
        simp only [Except.ok.injEq] at h
        rw [← h]
        simp [ordersInserted]
  | transportError msg =>
      simp only [placeLimitOrder] at h
      split_ifs at h with h1 h2 h3
      all_goals
        simp only [Except.ok.injEq] at h
        rw [← h]
        simp [ordersInserted]

/-- A successful `place_marketable_limit_order` inserts exactly one
    order row, carrying the `decision_id` it was given. -/
theorem placeMarketable_ok_rows (hasCreds : Bool) (venue : Venue)
    (ob : Option OrderbookSnap) (localId tok side : String) (size : ℚ)
    (mid : ℕ) (did : Option ℕ) (slip : ℤ) (ok : PlaceOk)
    (h : placeMarketableLimitOrder hasCreds venue ob localId tok side size
      mid did slip = Except.ok ok) :
    ∃ price, ordersInserted ok.steps =
      [⟨localId, mid, did, side, tok, price, size, "pending", none⟩] := by
  cases ob with
  | none => simp [placeMarketableLimitOrder] at h
  | some book =>
      simp only [placeMarketableLimitOrder] at h
      split_ifs at h with hside hask hbid
      · exact ⟨_, placeLimitOrder_ok_rows _ _ _ _ _ _ _ _ _ _ h⟩
      · exact ⟨_, placeLimitOrder_ok_rows _ _ _ _ _ _ _ _ _ _ h⟩

/-- Claim C8 (amended): the worker records every decision with
    `executed = false` and nothing ever flips the flag; the orders it
    submits carry no decision reference (`decision_id` stays `None`),
    so the claimed linked-order condition holds only vacuously. -/
theorem worker_never_links_decisions (s : Settings)
    (featuresOf : List Candle → Features) (env : AssetCycleEnv)
    (asset : String) :
    ((processAsset s featuresOf env asset).decisions.all
      (fun d => !d.executed)) = true ∧
    ((ordersInserted (processAsset s featuresOf env asset).steps).all
      (fun o => o.decision_id == none)) = true := by
  constructor
  · rcases processAsset_decisions_shape s featuresOf env asset with h | h
    · rw [h]
      rfl
    · rw [h]
      exact analyzeAsset_stored_not_executed featuresOf asset
        env.decisionId env.candles
  · rcases processAsset_steps_shape s featuresOf env asset with
      h | ⟨_, _, m, ok, _, hok, hsteps⟩
    · rw [h]
      rfl
    · rw [hsteps]
      obtain ⟨price, hrows⟩ :=
        placeMarketable_ok_rows _ _ _ _ _ _ _ _ _ _ _ hok
      rw [hrows]
      rfl

/-- Counterexample to claim C8 as stated: a fully successful trading
    cycle — strong UP signal, tradable market, liquidity, all risk
    checks passing, HTTP 200 — submits an order, yet the stored
    decision still has `executed = false` and the order row's
    `decision_id` is `None` (the worker never links or flips it). -/
theorem worker_trade_leaves_executed_false :
    processAsset defaultSettings (fun _ => strongFeatures) tradeEnv "BTC" =
      ⟨[⟨5, "BTC", "UP", 19/20, false⟩],
       [DbStep.insertOrder ⟨"uuid-1", 7, none, "BUY", "YT", 53/100,
          1219/50, "pending", none⟩, DbStep.netPost,
        DbStep.setStatus "open" none], none⟩ ∧
    ordersInserted
      (processAsset defaultSettings (fun _ => strongFeatures) tradeEnv
        "BTC").steps ≠ [] ∧
    ((processAsset defaultSettings (fun _ => strongFeatures) tradeEnv
        "BTC").decisions.map DecisionRow.executed) = [false] ∧
    ((ordersInserted (processAsset defaultSettings (fun _ => strongFeatures)
        tradeEnv "BTC").steps).map OrderRow.decision_id) = [none] := by
  have habs : |(1:ℚ)| = 1 := by norm_num
  have hsig : analyzeAsset (fun _ => strongFeatures) "BTC" 5 c20 =
      ⟨"UP", 19/20, [⟨5, "BTC", "UP", 19/20, false⟩]⟩ := by
    simp [analyzeAsset, c20, generateSignal, signalScores, scoreFeature,
      strongFeatures, storeDecision]
    norm_num [habs]
  have h1 : roundHalfEven ((4875:ℚ)/2) = 2438 := by
    simp only [roundHalfEven]
    norm_num
  have hsize : calculatePositionSize defaultSettings (19/20) = 1219/50 := by
    simp only [calculatePositionSize, round2, defaultSettings]
    norm_num [min_def]
    rw [h1]
    norm_num
  have hminliq : defaultSettings.MIN_LIQUIDITY_USD = 500 := rfl
  have hliq : checkLiquidity (some book600) 500 = true := by
    simp [checkLiquidity, book600]
    norm_num
  have hrisk : (checkPositionRisk defaultRiskConfig [] [] none "BTC"
      (1219/50) 500).1 = true := by
    simp [checkPositionRisk, defaultRiskConfig, totalCryptoExposure,
      assetExposure, openPositionCount, getDailyLoss]
    norm_num
  have hplace : placeMarketableLimitOrder true (Venue.http 200 "")
      (some book600) "uuid-1" "YT" "BUY" (1219/50) 7 none
      defaultSlippageBps =
      Except.ok ⟨[DbStep.insertOrder ⟨"uuid-1", 7, none, "BUY", "YT",
        53/100, 1219/50, "pending", none⟩, DbStep.netPost,
        DbStep.setStatus "open" none], "open"⟩ := by
    simp [placeMarketableLimitOrder, placeLimitOrder, truthyPrice, book600,
      defaultSlippageBps]
    norm_num
  have hrun : processAsset defaultSettings (fun _ => strongFeatures)
      tradeEnv "BTC" =
      ⟨[⟨5, "BTC", "UP", 19/20, false⟩],
       [DbStep.insertOrder ⟨"uuid-1", 7, none, "BUY", "YT", 53/100,
          1219/50, "pending", none⟩, DbStep.netPost,
        DbStep.setStatus "open" none], none⟩ := by
    simp [processAsset, tradeEnv, analysisDue, hsig, hsize, hliq, hrisk,
      truthyToken, hminliq]
    norm_num [hplace]
  refine ⟨hrun, ?_, ?_, ?_⟩ <;> rw [hrun] <;> simp [ordersInserted]

/-- Claim C10: the worker submits an entry order only when the analysis
    signal is UP or DOWN with confidence at least 0.5; a weaker UP/DOWN
    decision is still recorded but (when the cycle analyzed at all)
    produces no order, regardless of market, liquidity or risk state. -/
theorem entry_requires_strong_signal :
    (∀ (s : Settings) (featuresOf : List Candle → Features)
        (env : AssetCycleEnv) (asset : String),
      ordersInserted (processAsset s featuresOf env asset).steps ≠ [] →
        (((analyzeAsset featuresOf asset env.decisionId env.candles).signal
            = "UP" ∨
          (analyzeAsset featuresOf asset env.decisionId env.candles).signal
            = "DOWN") ∧
         1/2 ≤ (analyzeAsset featuresOf asset env.decisionId
            env.candles).confidence)) ∧
    (∀ (s : Settings) (featuresOf : List Candle → Features)
        (env : AssetCycleEnv) (asset : String),
      analysisDue env = true → env.staleData = false →
      ((analyzeAsset featuresOf asset env.decisionId env.candles).signal
          = "UP" ∨
        (analyzeAsset featuresOf asset env.decisionId env.candles).signal
          = "DOWN") →
      (analyzeAsset featuresOf asset env.decisionId env.candles).confidence
          < 1/2 →
      (processAsset s featuresOf env asset).decisions =
        [storeDecision env.decisionId asset
          (analyzeAsset featuresOf asset env.decisionId env.candles).signal
          (analyzeAsset featuresOf asset env.decisionId
            env.candles).confidence] ∧
      (processAsset s featuresOf env asset).steps = []) := by
  constructor
  · intro s featuresOf env asset hne
    rcases processAsset_steps_shape s featuresOf env asset with
      h | ⟨hsig, hconf, _⟩
    · exact absurd (by rw [h]; rfl) hne
    · refine ⟨?_, hconf⟩
      rcases analyzeAsset_signal_cases featuresOf asset env.decisionId
          env.candles with h | h | h
      · exact Or.inl h
      · exact Or.inr h
      · exact absurd h hsig
  · intro s featuresOf env asset hdue hstale hsig hconf
    have hne : (analyzeAsset featuresOf asset env.decisionId
        env.candles).signal ≠ "NEUTRAL" := by
      rcases hsig with h | h <;> rw [h] <;> simp
    have hgate : ((analyzeAsset featuresOf asset env.decisionId
          env.candles).signal == "NEUTRAL" ||
        decide ((analyzeAsset featuresOf asset env.decisionId
          env.candles).confidence < 1/2)) = true := by
      rw [Bool.or_eq_true]
      exact Or.inr (decide_eq_true hconf)
    have hstored := analyzeAsset_stored_of_ne featuresOf asset
      env.decisionId env.candles hne
    simp only [processAsset, hdue, hstale, hgate, Bool.not_true,
      Bool.false_eq_true, if_false, eq_self_iff_true, if_true]
    exact ⟨hstored, trivial⟩

/-- Witness for C10: with the weak (net 0.4) bullish features the
    decision UP/0.4 is stored but no order step is performed, in the
    same fully permissive environment that trades on a strong signal. -/
theorem entry_requires_strong_signal_witness :
    (processAsset defaultSettings (fun _ => weakFeatures) tradeEnv
      "BTC").decisions = [⟨5, "BTC", "UP", 2/5, false⟩] ∧
    (processAsset defaultSettings (fun _ => weakFeatures) tradeEnv
      "BTC").steps = [] := by
  have habs : |(2:ℚ)/5| = 2/5 := by norm_num
  have hsig : analyzeAsset (fun _ => weakFeatures) "BTC" tradeEnv.decisionId
      tradeEnv.candles = ⟨"UP", 2/5, [⟨5, "BTC", "UP", 2/5, false⟩]⟩ := by
    show analyzeAsset (fun _ => weakFeatures) "BTC" 5 c20 = _
    simp [analyzeAsset, c20, generateSignal, signalScores, scoreFeature,
      weakFeatures, storeDecision]
    norm_num [habs]
  have h := entry_requires_strong_signal.2 defaultSettings
    (fun _ => weakFeatures) tradeEnv "BTC" rfl rfl
    (Or.inl (by rw [hsig])) (by rw [hsig]; norm_num)
  refine ⟨?_, h.2⟩
  rw [h.1, hsig]
  rfl

end Poly
